import Mathlib

/-!
Shallow embedding of the token-counting batch job `processing.py` and the
error branch of `output_fn` in `sequence_tagger_serving.py`.

The filesystem is modelled as a list of (absolute path, content) entries
together with a current working directory.  Paths are lists of components.
-/

/-- A filesystem path, as a list of components. -/
abbrev FPath := List String

/-- The filesystem visible to the process: regular-file entries (absolute
path plus text content) and the process's current working directory.
Directories are implicit: a directory exists exactly where entries lie
under it.  This matches what the script can observe, because `os.walk`
with its default `onerror=None` suppresses traversal errors, so a missing
or unreadable directory is indistinguishable from an empty one. -/
structure FS where
  entries : List (FPath × String)
  cwd : FPath

/-- Python-level failures the embedded code can raise. -/
inductive PyErr where
  | argMissing (arg : String)
  | fileNotFound (name : String)
  | nameError (name : String)
  | valueError (msg : String)
deriving DecidableEq

/-- `pathUnder dir p` holds when `p` denotes a regular file lying strictly
below directory `dir` (at any depth), i.e. `dir` is a proper prefix of `p`. -/
def pathUnder (dir p : FPath) : Bool :=
  (p.take dir.length == dir) && decide (dir.length < p.length)

/-- Last path component, i.e. the bare filename `os.walk` reports. -/
def baseName (p : FPath) : String := p.getLastD ("")

/-- The regular-file entries found anywhere under `dir`. -/
def entriesUnder (fs : FS) (dir : FPath) : List (FPath × String) :=
  fs.entries.filter (fun e => pathUnder dir e.1)

/-- `files = []; for _,_,filenames in os.walk(args.input_dir): files.extend(filenames)`
— the traversal collects only the bare filenames, not full paths.
`os.walk` with the default `onerror=None` never raises: a missing or
unreadable input directory simply yields no entries. -/
def walkFiles (fs : FS) (dir : FPath) : List String :=
  (entriesUnder fs dir).map (fun e => baseName e.1)

/-- First entry in the list with the given absolute path, if any. -/
def findPath (p : FPath) : List (FPath × String) → Option String
  | [] => none
  | e :: rest => if e.1 = p then some e.2 else findPath p rest

/-- `open(file, 'r')` where `file` is a bare filename: the name is resolved
relative to the current working directory, NOT relative to the directory
the traversal found the file in.  `none` models `FileNotFoundError`. -/
def openFile (fs : FS) (name : String) : Option String :=
  findPath (fs.cwd ++ [name]) fs.entries

/-- `file_string = file.read().replace('\n','')` — every newline character
is deleted (not replaced by anything). -/
def removeNewlines (s : String) : String :=
  ⟨s.data.filter (fun c => !(c == '\n'))⟩

/-- Core of Python `str.count` for a needle `t`: a left-to-right scan that,
after recording a match, skips over the matched characters (`skip` pending
characters still to be jumped) so that occurrences never overlap.
For the empty needle every gap matches, giving `len + 1`, as in Python. -/
def isPrefixList : List Char → List Char → Bool
  | [], _ => true
  | _ :: _, [] => false
  | a :: ts, b :: bs => (a == b) && isPrefixList ts bs

def countTokAux (t : List Char) : List Char → Nat → Nat
  | [], _ => if t.isEmpty then 1 else 0
  | c :: s, skip + 1 =>
      let _ := c
      countTokAux t s skip
  | c :: s, 0 =>
      if isPrefixList t (c :: s) then 1 + countTokAux t s (t.length - 1)
      else countTokAux t s 0

/-- `s.count(t)` in Python: number of non-overlapping occurrences of `t`
in `s`, scanning left to right. -/
def pyCount (t s : String) : Nat := countTokAux t.data s.data 0

/-- Python `s.split(',')`: split on every comma, never trimming, never
dropping empty pieces; the result always has at least one element. -/
def splitComma : List Char → List (List Char)
  | [] => [[]]
  | c :: rest =>
      if c = ',' then [] :: splitComma rest
      else
        match splitComma rest with
        | [] => [[c]]
        | g :: gs => (c :: g) :: gs

/-- `tokens = args.tokens.split(',')` — comma split, no whitespace trimming. -/
def parseTokens (s : String) : List String :=
  (splitComma s.data).map (fun cs => ⟨cs⟩)

/-- Key list of the Python dict comprehension `{token : 0 for token in tokens}`:
first occurrence of each token, in input order; later duplicates collapse
onto the existing key. -/
def dedupKeys : List String → List String
  | [] => []
  | t :: rest => t :: (dedupKeys rest).filter (fun x => !(x == t))

/-- `token_counts = {token : 0 for token in tokens}` as an ordered
association list. -/
def initCounts (tokens : List String) : List (String × Nat) :=
  (dedupKeys tokens).map (fun t => (t, 0))

/-- `for k, v in token_counts.items(): token_counts[k] += file_string.count(k)`
for a single file whose raw content is `content`. -/
def addFileCounts (counts : List (String × Nat)) (content : String) :
    List (String × Nat) :=
  counts.map (fun p => (p.1, p.2 + pyCount p.1 (removeNewlines content)))

/-- The per-file loop of `main`: each collected filename is opened (relative
to the cwd) and its newline-stripped content counted; any failed open raises
and aborts the whole loop — there is no handler anywhere in `main`. -/
def processFiles (fs : FS) : List (String × Nat) → List String →
    Except PyErr (List (String × Nat))
  | counts, [] => .ok counts
  | counts, f :: rest =>
      match openFile fs f with
      | none => .error (.fileNotFound f)
      | some content => processFiles fs (addFileCounts counts content) rest

/-- The resolved paths whose open is attempted, in order; the loop stops at
the first failing open. -/
def attemptedReads (fs : FS) : List String → List FPath
  | [] => []
  | f :: rest =>
      (fs.cwd ++ [f]) ::
        (if (openFile fs f).isSome then attemptedReads fs rest else [])

/-- JSON string escaping as `json.dump` performs it for the characters that
can appear here. -/
def jsonEscapeChar (c : Char) : String :=
  if c = '"' then "\\\""
  else if c = '\\' then "\\\\"
  else if c = '\n' then "\\n"
  else String.singleton c

def jsonString (s : String) : String :=
  "\"" ++ String.join (s.data.map jsonEscapeChar) ++ "\""

/-- `json.dump(token_counts, file)` with Python's default separators
`(', ', ': ')`: keys appear in dict insertion order. -/
def jsonSerialize (counts : List (String × Nat)) : String :=
  "\x7b" ++
    String.intercalate (", ")
      (counts.map (fun p => jsonString p.1 ++ ": " ++ toString p.2)) ++
  "\x7d"

deriving instance DecidableEq for Except

/-- Observable outcome of one run: the value `main` produces (or the
exception that escaped), the file opens attempted, and the files written. -/
structure RunOut where
  result : Except PyErr (List (String × Nat))
  reads : List FPath
  writes : List (FPath × String)
deriving DecidableEq

/-- The body of `main(args)`: parse tokens, zero-init the table, walk the
input directory for bare filenames, count file by file, then — only if
every file was processed — write `token_counts.json` into the output
directory.  An error leaves no output file. -/
def mainRun (tokensArg : String) (inputDir outputDir : FPath) (fs : FS) :
    RunOut :=
  let tokens := parseTokens tokensArg
  let counts0 := initCounts tokens
  let files := walkFiles fs inputDir
  match processFiles fs counts0 files with
  | .error e => ⟨.error e, attemptedReads fs files, []⟩
  | .ok counts =>
      ⟨.ok counts, attemptedReads fs files,
        [(outputDir ++ ["token_counts.json"], jsonSerialize counts)]⟩

/-- The whole process: `ArgumentParser` declares `--tokens` with
`required=True`, so a missing argument makes the parser abort before
`main` is ever entered — no directory walk, no file open, no write. -/
def runProg (tokensArg : Option String) (inputDir outputDir : FPath)
    (fs : FS) : RunOut :=
  match tokensArg with
  | none => ⟨.error (.argMissing ("--tokens")), [], []⟩
  | some s => mainRun s inputDir outputDir fs

/-- The body of `main(args)` with the final write-open modelled as fallible:
`open(os.path.join(args.output_dir, 'token_counts.json'), 'w')` raises
`FileNotFoundError` when the output directory does not exist (mode `w`
creates the file, never its directory), and nothing in `main` catches it,
so the run aborts with no output file.  `dirs` lists the directories that
exist and are writable (an unwritable directory is modelled by omitting it:
a permission error propagates the same way, leaving no file).  Entries can
only lie under directories that exist, so the read side needs no check;
when the output directory exists this run coincides with `mainRun`, which
is the lemma `c7_io_error_aborts_run` proves alongside the error cases. -/
def runWithDirs (tokensArg : String) (inputDir outputDir : FPath) (fs : FS)
    (dirs : List FPath) : RunOut :=
  let files := walkFiles fs inputDir
  match processFiles fs (initCounts (parseTokens tokensArg)) files with
  | .error e => ⟨.error e, attemptedReads fs files, []⟩
  | .ok counts =>
      if outputDir ∈ dirs then
        ⟨.ok counts, attemptedReads fs files,
          [(outputDir ++ ["token_counts.json"], jsonSerialize counts)]⟩
      else
        ⟨.error (.fileNotFound ("token_counts.json")),
          attemptedReads fs files, []⟩

/-- Content actually obtained when opening a collected filename (only
meaningful when the open succeeds). -/
def getContent (fs : FS) (name : String) : String :=
  (openFile fs name).getD ("")

def okCounts : Except PyErr (List (String × Nat)) → List (String × Nat)
  | .ok c => c
  | .error _ => []

def isOkB : Except PyErr (List (String × Nat)) → Bool
  | .ok _ => true
  | .error _ => false

/-! Embedding of `output_fn` from `sequence_tagger_serving.py`.  The
prediction object and its pickled form are kept abstract; what matters is
which branch runs and what it raises. -/

/-- Abstract stand-in for `pickle.dumps(prediction)`; pickling a prediction
object does not fail in this model (the surrounding `try` never fires). -/
structure Pickled (α : Type) where
  val : α
deriving DecidableEq

def pickleDumps {α : Type} (x : α) : Pickled α := ⟨x⟩

/-- ASCII model of Python `str.lower()`. -/
def lowerChar (c : Char) : Char :=
  if 'A' ≤ c ∧ c ≤ 'Z' then Char.ofNat (c.toNat + 32) else c

def pyLower (s : String) : String := ⟨s.data.map lowerChar⟩

/-- Evaluating a name inside the f-string: Python resolves it in the local
scope and raises `NameError` when it is unbound. -/
def lookupVar (env : List (String × String)) (n : String) :
    Except PyErr String :=
  match findPath [n] (env.map (fun p => ([p.1], p.2))) with
  | some v => .ok v
  | none => .error (.nameError n)

/-- `output_fn(prediction, response_content_type)`: the pickle branch
(case-insensitive) pickles and returns; every other content type evaluates
the f-string `f"Format {request_content_type} is not supported..."` whose
interpolated name is NOT among the function's locals (`prediction`,
`response_content_type`), so the name lookup itself raises before the
intended `ValueError` can be constructed. -/
def output_fn {α : Type} (prediction : α) (response_content_type : String)
    (predRepr : String) : Except PyErr (Pickled α) :=
  let env : List (String × String) :=
    [("prediction", predRepr), ("response_content_type", response_content_type)]
  if pyLower response_content_type = "pickle" then
    .ok (pickleDumps prediction)
  else
    match lookupVar env ("request_content_type") with
    | .error e => .error e
    | .ok fmt =>
        .error (.valueError
          ("Format " ++ fmt ++ " is not supported. Please use \"application/json\" instead."))

/-! Helper lemmas about the embedded operations. -/

lemma isPrefixList_length : ∀ (t l : List Char), isPrefixList t l = true → t.length ≤ l.length := by
  intro t
  induction t with
  | nil => intro l _; simp
  | cons a ts ih =>
      intro l h
      cases l with
      | nil => simp [isPrefixList] at h
      | cons b bs =>
          simp only [isPrefixList, Bool.and_eq_true] at h
          simpa using ih bs h.2

lemma countTokAux_mul_le (t : List Char) (ht : ¬ t.isEmpty = true) :
    ∀ (s : List Char) (skip : Nat),
      countTokAux t s skip * t.length + min skip s.length ≤ s.length := by
  intro s
  induction s with
  | nil => intro skip; simp [countTokAux, ht]
  | cons c s ih =>
      intro skip
      cases skip with
      | succ k =>
          have hk := ih k
          simp only [countTokAux, List.length_cons, Nat.succ_min_succ]
          omega
      | zero =>
          by_cases hp : isPrefixList t (c :: s) = true
          · have hlen := isPrefixList_length t (c :: s) hp
            have hrec := ih (t.length - 1)
            have ht1 : 1 ≤ t.length := by
              cases t
              · simp at ht
              · simp
            have hcs : (c :: s).length = s.length + 1 := rfl
            simp only [countTokAux, if_pos hp, Nat.add_mul, one_mul,
              Nat.zero_min, Nat.add_zero] at hrec ⊢
            rcases Nat.le_total (t.length - 1) s.length with h | h
            · rw [Nat.min_eq_left h] at hrec
              omega
            · rw [Nat.min_eq_right h] at hrec
              omega
          · have hrec := ih 0
            have hcs : (c :: s).length = s.length + 1 := rfl
            simp only [countTokAux, if_neg hp, Nat.zero_min,
              Nat.add_zero, Nat.min_zero] at hrec ⊢
            omega

lemma pyCount_mul_le (t s : String) (ht : ¬ t.data.isEmpty = true) :
    pyCount t s * t.length ≤ s.length := by
  obtain ⟨td⟩ := t
  obtain ⟨sd⟩ := s
  have h := countTokAux_mul_le td ht sd 0
  simp only [Nat.zero_min, Nat.add_zero] at h
  exact h

lemma processFiles_ok (fs : FS) (files : List String) :
    ∀ (counts : List (String × Nat)),
      (∀ f ∈ files, (openFile fs f).isSome = true) →
      processFiles fs counts files =
        .ok (counts.map (fun p => (p.1, p.2 +
          (files.map (fun f => pyCount p.1 (removeNewlines (getContent fs f)))).sum))) := by
  induction files with
  | nil =>
      intro counts _
      simp [processFiles]
  | cons f rest ih =>
      intro counts h
      obtain ⟨c, hc⟩ := Option.isSome_iff_exists.mp (h f (List.mem_cons_self f rest))
      have hrest := fun g hg => h g (List.mem_cons_of_mem f hg)
      simp only [processFiles, hc]
      rw [ih (addFileCounts counts c) hrest]
      simp [addFileCounts, List.map_map, Function.comp, getContent, hc, Nat.add_assoc]

lemma processFiles_err (fs : FS) (files : List String) :
    ∀ (counts : List (String × Nat)),
      (∃ f ∈ files, openFile fs f = none) →
      isOkB (processFiles fs counts files) = false := by
  induction files with
  | nil =>
      intro counts h
      simp at h
  | cons f rest ih =>
      intro counts h
      obtain ⟨g, hg, hnone⟩ := h
      rcases List.mem_cons.mp hg with rfl | hgr
      · simp [processFiles, hnone, isOkB]
      · cases hof : openFile fs f with
        | none => simp [processFiles, hof, isOkB]
        | some c =>
            simp only [processFiles, hof]
            exact ih _ ⟨g, hgr, hnone⟩

lemma mem_dedupKeys (a : String) : ∀ (l : List String), a ∈ dedupKeys l ↔ a ∈ l := by
  intro l
  induction l with
  | nil => simp [dedupKeys]
  | cons t rest ih =>
      simp only [dedupKeys, List.mem_cons, List.mem_filter, ih,
        Bool.not_eq_eq_eq_not, Bool.not_true, beq_eq_false_iff_ne]
      by_cases hat : a = t <;> simp [hat]

lemma dedupKeys_nodup : ∀ (l : List String), (dedupKeys l).Nodup := by
  intro l
  induction l with
  | nil => simp [dedupKeys]
  | cons t rest ih =>
      simp only [dedupKeys, List.nodup_cons]
      refine ⟨?_, ih.filter _⟩
      intro hmem
      have := List.mem_filter.mp hmem
      simp at this

lemma dedupKeys_sublist : ∀ (l : List String), (dedupKeys l).Sublist l := by
  intro l
  induction l with
  | nil => simp [dedupKeys]
  | cons t rest ih =>
      exact List.Sublist.cons₂ t ((List.filter_sublist _).trans ih)

lemma splitComma_length_pos : ∀ (l : List Char), 0 < (splitComma l).length := by
  intro l
  induction l with
  | nil => simp [splitComma]
  | cons c rest ih =>
      by_cases hc : c = ','
      · simp [splitComma, hc]
      · simp only [splitComma, if_neg hc]
        cases h : splitComma rest <;> simp

/-- Counterexample to claim C1 as stated: the claim is unconditional over
all file sets, but with the input file `input/sub/a.txt` containing `cat`
shadowed by an unrelated `work/a.txt` containing `dog` in the cwd, the run
records 0 for token `cat` while the sum over the input files of its
occurrences (newlines removed) is 1 — the bare-name/cwd resolution defect
of C2 makes the unconditional equation false. -/
theorem c1_counterexample :
    (mainRun ("cat") [("input")] [("out")]
        ⟨[([("input"), ("sub"), ("a.txt")], ("cat")),
          ([("work"), ("a.txt")], ("dog"))], [("work")]⟩).result =
      .ok [(("cat"), 0)] ∧
    ((entriesUnder
        ⟨[([("input"), ("sub"), ("a.txt")], ("cat")),
          ([("work"), ("a.txt")], ("dog"))], [("work")]⟩ [("input")]).map
      (fun e => pyCount ("cat") (removeNewlines e.2))).sum = 1 := by
  refine ⟨?_, ?_⟩ <;> decide

/-- Claim C1 (amended): whenever every discovered file's bare name resolves
via the cwd to that file's own content (e.g. a flat input directory that is
also the cwd), the table `main` produces records, for each token key,
exactly the sum over every file under the input directory of the
non-overlapping occurrence count of that token in the file's content with
all newlines removed; in particular an input directory with no files yields
a count of 0 for every token.  The resolution proviso is forced by
`c1_counterexample`: without it the cwd-shadow defect of C2 breaks the
equation. -/
theorem c1_counts_equal_per_file_sums (tokensArg : String)
    (inputDir outputDir : FPath) (fs : FS)
    (hread : ∀ e ∈ entriesUnder fs inputDir, openFile fs (baseName e.1) = some e.2) :
    (mainRun tokensArg inputDir outputDir fs).result =
      .ok ((dedupKeys (parseTokens tokensArg)).map (fun tok =>
        (tok, ((entriesUnder fs inputDir).map
          (fun e => pyCount tok (removeNewlines e.2))).sum))) ∧
    (entriesUnder fs inputDir = [] →
      (mainRun tokensArg inputDir outputDir fs).result =
        .ok ((dedupKeys (parseTokens tokensArg)).map (fun tok => (tok, 0)))) := by
  have hsome : ∀ f ∈ walkFiles fs inputDir, (openFile fs f).isSome = true := by
    intro f hf
    obtain ⟨e, he, rfl⟩ := List.mem_map.mp hf
    rw [hread e he]
    rfl
  have hmapeq : ∀ tok : String,
      ((walkFiles fs inputDir).map
        (fun f => pyCount tok (removeNewlines (getContent fs f)))) =
      ((entriesUnder fs inputDir).map
        (fun e => pyCount tok (removeNewlines e.2))) := by
    intro tok
    unfold walkFiles
    rw [List.map_map]
    apply List.map_congr_left
    intro e he
    simp [Function.comp, getContent, hread e he]
  have hp := processFiles_ok fs (walkFiles fs inputDir)
    (initCounts (parseTokens tokensArg)) hsome
  have hmain : (mainRun tokensArg inputDir outputDir fs).result =
      .ok ((dedupKeys (parseTokens tokensArg)).map (fun tok =>
        (tok, ((entriesUnder fs inputDir).map
          (fun e => pyCount tok (removeNewlines e.2))).sum))) := by
    simp only [mainRun, hp]
    congr 1
    rw [initCounts, List.map_map]
    apply List.map_congr_left
    intro tok _
    simp [Function.comp, hmapeq tok]
  exact ⟨hmain, fun hempty => by rw [hmain]; simp [hempty]⟩

/-- Witness for C1 at a two-file input directory (counts 3 and 1) and at an
input directory containing no files (count 0). -/
theorem c1_witness :
    (mainRun ("cat,dog") [("in")] [("out")]
        ⟨[([("in"), ("a.txt")], ("cat dog cat")),
          ([("in"), ("b.txt")], ("ca\nt"))], [("in")]⟩).result =
      .ok [(("cat"), 3), (("dog"), 1)] ∧
    (mainRun ("cat") [("empty")] [("out")]
        ⟨[], [("empty")]⟩).result = .ok [(("cat"), 0)] :=
  ⟨(c1_counts_equal_per_file_sums ("cat,dog") [("in")] [("out")]
      ⟨[([("in"), ("a.txt")], ("cat dog cat")),
        ([("in"), ("b.txt")], ("ca\nt"))], [("in")]⟩ (by decide)).1,
   (c1_counts_equal_per_file_sums ("cat") [("empty")] [("out")]
      ⟨[], [("empty")]⟩ (by decide)).2 (by decide)⟩

/-- Claim C2 (code bug): the traversal does collect files from arbitrarily
deep subdirectories, but it keeps only their bare filenames and opens those
relative to the current working directory, not at the location where the
traversal found them.  First scenario: the file `input/sub/a.txt` exists and
is readable at its real path, yet the run aborts with `FileNotFoundError`
for the bare name `a.txt`.  Second scenario: with an unrelated file of the
same bare name in the cwd, the run succeeds but counts that file's content
(`dog`) instead of the input file's own content (`cat`), reporting 0. -/
theorem c2_basename_cwd_open_divergence :
    (findPath [("input"), ("sub"), ("a.txt")]
        [([("input"), ("sub"), ("a.txt")], ("cat"))] = some ("cat") ∧
      runProg (some ("cat")) [("input")] [("out")]
          ⟨[([("input"), ("sub"), ("a.txt")], ("cat"))], [("work")]⟩ =
        ⟨.error (.fileNotFound ("a.txt")), [[("work"), ("a.txt")]], []⟩) ∧
    (pyCount ("cat") ("cat") = 1 ∧
      (runProg (some ("cat")) [("input")] [("out")]
          ⟨[([("input"), ("sub"), ("a.txt")], ("cat")),
            ([("work"), ("a.txt")], ("dog"))], [("work")]⟩).result =
        .ok [(("cat"), 0)]) := by
  refine ⟨⟨?_, ?_⟩, ?_, ?_⟩ <;> decide

lemma filter_newline_length (l : List Char) :
    (l.filter (fun c => !(c == '\n'))).length + l.count '\n' = l.length := by
  induction l with
  | nil => simp
  | cons c cs ih =>
      by_cases h : c = '\n' <;> simp [h, List.count_cons] <;> omega

/-- Claim C3: newline characters are deleted from file content before
counting — none survives, and the resulting length drops by exactly the
number of newlines, so nothing is substituted in their place.  Consequently
content `ca\nt` joins to `cat`, the token `cat` is counted once in it, and
a full run over a file containing `ca\nt` reports 1. -/
theorem c3_newline_deletion :
    (∀ s : String, (removeNewlines s).data.count '\n' = 0) ∧
    (∀ s : String, (removeNewlines s).length + s.data.count '\n' = s.length) ∧
    removeNewlines ("ca\nt") = "cat" ∧
    pyCount ("cat") (removeNewlines ("ca\nt")) = 1 ∧
    (mainRun ("cat") [("in")] [("out")]
        ⟨[([("in"), ("f.txt")], ("ca\nt"))], [("in")]⟩).result =
      .ok [(("cat"), 1)] := by
  refine ⟨?_, ?_, by decide, by decide, by decide⟩
  · intro s
    rw [List.count_eq_zero]
    intro h
    simp [removeNewlines, List.mem_filter] at h
  · intro s
    obtain ⟨l⟩ := s
    exact filter_newline_length l

lemma data_ne_nil_of_ne_empty (t : String) (ht : ¬ t = "") :
    ¬ t.data.isEmpty = true := by
  obtain ⟨l⟩ := t
  cases l with
  | nil => exact absurd rfl ht
  | cons c cs => simp

/-- Claim C4: occurrence counting is non-overlapping — for every non-empty
token, the counted occurrences times the token length never exceed the
scanned string's length, so overlapping matches are never double-counted;
in particular token `aa` in `aaa` counts 1, not 2, including in a full run. -/
theorem c4_nonoverlapping_count (t s : String) (ht : ¬ t = "") :
    pyCount t s * t.length ≤ s.length ∧
    pyCount ("aa") ("aaa") = 1 ∧
    (mainRun ("aa") [("in")] [("out")]
        ⟨[([("in"), ("f")], ("aaa"))], [("in")]⟩).result =
      .ok [(("aa"), 1)] :=
  ⟨pyCount_mul_le t s (data_ne_nil_of_ne_empty t ht), by decide, by decide⟩

/-- Witness for C4 at token `aa`, showing the bound at string `aaaa` and
the concrete overlap example. -/
theorem c4_witness :
    pyCount ("aa") ("aaaa") * ("aa").length ≤ ("aaaa").length ∧
    pyCount ("aa") ("aaa") = 1 ∧
    (mainRun ("aa") [("in")] [("out")]
        ⟨[([("in"), ("f")], ("aaa"))], [("in")]⟩).result =
      .ok [(("aa"), 1)] :=
  c4_nonoverlapping_count ("aa") ("aaaa") (by decide)

/-- Claim C5: the token argument is split on commas with no whitespace
trimming; the count table keeps the first occurrence of each token, its
keys are duplicate-free and contain exactly the parsed tokens, and a
duplicated token (`a,a`) yields a single key whose count is summed once
(3 for `aaa`, not 6). -/
theorem c5_comma_split_dedup :
    parseTokens ("cat, dog") = ["cat", " dog"] ∧
    (∀ tokensArg : String,
      (initCounts (parseTokens tokensArg)).map Prod.fst =
        dedupKeys (parseTokens tokensArg)) ∧
    (∀ l : List String, (dedupKeys l).Nodup) ∧
    (∀ l : List String, ∀ a : String, a ∈ dedupKeys l ↔ a ∈ l) ∧
    mainRun ("a,a") [("in")] [("out")]
        ⟨[([("in"), ("f")], ("aaa"))], [("in")]⟩ =
      ⟨.ok [(("a"), 3)], [[("in"), ("f")]],
        [([("out"), ("token_counts.json")], "\x7b\"a\": 3\x7d")]⟩ :=
  ⟨by decide,
   fun tokensArg => by simp [initCounts, List.map_map, Function.comp_def],
   dedupKeys_nodup,
   fun l a => mem_dedupKeys a l,
   by decide⟩

/-- Claim C6: a missing `--tokens` argument makes the run fail with the
parser's configuration error before any file is opened or written, for
every filesystem alike; and the token list is never empty after parsing
(a comma split always returns at least one piece), so the empty-list
configuration failure can never arise later. -/
theorem c6_missing_tokens_aborts_early (inputDir outputDir : FPath) (fs : FS) :
    runProg none inputDir outputDir fs =
      ⟨.error (.argMissing ("--tokens")), [], []⟩ ∧
    (∀ s : String, 0 < (parseTokens s).length) :=
  ⟨rfl, fun s => by
    simpa [parseTokens, List.length_map] using splitComma_length_pos s.data⟩

/-- Counterexample to claim C7 as stated: with an input directory `missing`
that does not exist (it is absent from the directory list, and the
filesystem holds no entry under it), the run does not abort — `os.walk`
suppresses the traversal error — and it succeeds, writing an all-zero
`token_counts.json` into the existing output directory. -/
theorem c7_counterexample_missing_input_dir :
    runWithDirs ("cat") [("missing")] [("out")]
        ⟨[([("home"), ("data.txt")], ("cat"))], [("home")]⟩
        [[("home")], [("out")]] =
      ⟨.ok [(("cat"), 0)], [],
        [([("out"), ("token_counts.json")], "\x7b\"cat\": 0\x7d")]⟩ := by
  decide

/-- Claim C7 (amended): if any discovered file fails to open, or the output
directory is missing or unwritable when the output file is opened, the
error propagates uncaught — the run does not produce a result and writes
no file at all (no per-file skip, no retry, no partial output); and when
the output directory does exist the run coincides with `mainRun`, whose
write step always succeeds.  Only the input-directory clause of the
original claim is dropped, as `c7_counterexample_missing_input_dir`
forces. -/
theorem c7_io_error_aborts_run (tokensArg : String)
    (inputDir outputDir : FPath) (fs : FS) (dirs : List FPath) :
    ((∃ f ∈ walkFiles fs inputDir, openFile fs f = none) →
      isOkB (runWithDirs tokensArg inputDir outputDir fs dirs).result = false ∧
      (runWithDirs tokensArg inputDir outputDir fs dirs).writes = []) ∧
    (¬ outputDir ∈ dirs →
      isOkB (runWithDirs tokensArg inputDir outputDir fs dirs).result = false ∧
      (runWithDirs tokensArg inputDir outputDir fs dirs).writes = []) ∧
    (outputDir ∈ dirs →
      runWithDirs tokensArg inputDir outputDir fs dirs =
        mainRun tokensArg inputDir outputDir fs) := by
  refine ⟨?_, ?_, ?_⟩
  · intro h
    have herr := processFiles_err fs (walkFiles fs inputDir)
      (initCounts (parseTokens tokensArg)) h
    cases hp : processFiles fs (initCounts (parseTokens tokensArg))
        (walkFiles fs inputDir) with
    | error e => constructor <;> simp [runWithDirs, hp, isOkB]
    | ok c =>
        rw [hp] at herr
        simp [isOkB] at herr
  · intro h
    cases hp : processFiles fs (initCounts (parseTokens tokensArg))
        (walkFiles fs inputDir) with
    | error e => constructor <;> simp [runWithDirs, hp, isOkB]
    | ok c => constructor <;> simp [runWithDirs, hp, isOkB, if_neg h]
  · intro h
    cases hp : processFiles fs (initCounts (parseTokens tokensArg))
        (walkFiles fs inputDir) with
    | error e => simp [runWithDirs, mainRun, hp]
    | ok c => simp [runWithDirs, mainRun, hp, if_pos h]

/-- Witness for the amended C7: a discovered file whose bare name does not
resolve in the cwd aborts the run with no output written; a run whose reads
succeed but whose output directory `gone` does not exist also aborts with
no output written; and with an existing output directory the run agrees
with `mainRun`. -/
theorem c7_witness :
    (isOkB (runWithDirs ("t") [("in")] [("out")]
        ⟨[([("in"), ("sub"), ("x")], ("t"))], [("cwd")]⟩
        [[("in")], [("out")]]).result = false ∧
      (runWithDirs ("t") [("in")] [("out")]
        ⟨[([("in"), ("sub"), ("x")], ("t"))], [("cwd")]⟩
        [[("in")], [("out")]]).writes = []) ∧
    (isOkB (runWithDirs ("t") [("in")] [("gone")]
        ⟨[([("in"), ("x")], ("t"))], [("in")]⟩ [[("in")]]).result = false ∧
      (runWithDirs ("t") [("in")] [("gone")]
        ⟨[([("in"), ("x")], ("t"))], [("in")]⟩ [[("in")]]).writes = []) ∧
    runWithDirs ("t") [("in")] [("out")]
        ⟨[([("in"), ("x")], ("t"))], [("in")]⟩ [[("in")], [("out")]] =
      mainRun ("t") [("in")] [("out")] ⟨[([("in"), ("x")], ("t"))], [("in")]⟩ :=
  ⟨(c7_io_error_aborts_run ("t") [("in")] [("out")]
      ⟨[([("in"), ("sub"), ("x")], ("t"))], [("cwd")]⟩
      [[("in")], [("out")]]).1 (by decide),
   (c7_io_error_aborts_run ("t") [("in")] [("gone")]
      ⟨[([("in"), ("x")], ("t"))], [("in")]⟩ [[("in")]]).2.1 (by decide),
   (c7_io_error_aborts_run ("t") [("in")] [("out")]
      ⟨[([("in"), ("x")], ("t"))], [("in")]⟩ [[("in")], [("out")]]).2.2
     (by decide)⟩

/-- Claim C8: on a successful run the program writes exactly one file,
`<output_dir>/token_counts.json`, holding the JSON serialization of the
final count table; the write trace contains nothing else. -/
theorem c8_single_output_file (tokensArg : String)
    (inputDir outputDir : FPath) (fs : FS)
    (h : ∀ f ∈ walkFiles fs inputDir, (openFile fs f).isSome = true) :
    (mainRun tokensArg inputDir outputDir fs).writes =
      [(outputDir ++ [("token_counts.json")],
        jsonSerialize (okCounts (mainRun tokensArg inputDir outputDir fs).result))] ∧
    (mainRun tokensArg inputDir outputDir fs).writes.length = 1 := by
  have hp := processFiles_ok fs (walkFiles fs inputDir)
    (initCounts (parseTokens tokensArg)) h
  constructor <;> simp [mainRun, hp, okCounts]

/-- Witness for C8 on a run over a one-file input directory. -/
theorem c8_witness :
    (mainRun ("cat,dog") [("in")] [("out")]
        ⟨[([("in"), ("a")], ("cat dog cat"))], [("in")]⟩).writes =
      [([("out"), ("token_counts.json")],
        jsonSerialize (okCounts (mainRun ("cat,dog") [("in")] [("out")]
          ⟨[([("in"), ("a")], ("cat dog cat"))], [("in")]⟩).result))] ∧
    (mainRun ("cat,dog") [("in")] [("out")]
        ⟨[([("in"), ("a")], ("cat dog cat"))], [("in")]⟩).writes.length = 1 :=
  c8_single_output_file ("cat,dog") [("in")] [("out")]
    ⟨[([("in"), ("a")], ("cat dog cat"))], [("in")]⟩ (by decide)

/-- Claim C9: two runs with the same token argument whose enumerated files
open successfully and carry the same contents (up to enumeration order)
write byte-identical output; the JSON keys are the parsed tokens with
duplicates collapsed to their first occurrence, in input order (an
order-preserving sublist of the token list). -/
theorem c9_deterministic_key_order (tokensArg : String)
    (inputDir outputDir : FPath) (fs1 fs2 : FS)
    (h1 : ∀ f ∈ walkFiles fs1 inputDir, (openFile fs1 f).isSome = true)
    (h2 : ∀ f ∈ walkFiles fs2 inputDir, (openFile fs2 f).isSome = true)
    (hperm : ((walkFiles fs1 inputDir).map (getContent fs1)).Perm
             ((walkFiles fs2 inputDir).map (getContent fs2))) :
    (mainRun tokensArg inputDir outputDir fs1).writes =
      (mainRun tokensArg inputDir outputDir fs2).writes ∧
    Except.map (fun cs => cs.map Prod.fst)
        (mainRun tokensArg inputDir outputDir fs1).result =
      .ok (dedupKeys (parseTokens tokensArg)) ∧
    (dedupKeys (parseTokens tokensArg)).Sublist (parseTokens tokensArg) := by
  have hp1 := processFiles_ok fs1 (walkFiles fs1 inputDir)
    (initCounts (parseTokens tokensArg)) h1
  have hp2 := processFiles_ok fs2 (walkFiles fs2 inputDir)
    (initCounts (parseTokens tokensArg)) h2
  have hsum : ∀ tok : String,
      ((walkFiles fs1 inputDir).map
        (fun f => pyCount tok (removeNewlines (getContent fs1 f)))).sum =
      ((walkFiles fs2 inputDir).map
        (fun f => pyCount tok (removeNewlines (getContent fs2 f)))).sum := by
    intro tok
    have h := (hperm.map (fun c => pyCount tok (removeNewlines c))).sum_eq
    simpa [List.map_map, Function.comp_def] using h
  have hcounts :
      (initCounts (parseTokens tokensArg)).map (fun p => (p.1, p.2 +
        ((walkFiles fs1 inputDir).map
          (fun f => pyCount p.1 (removeNewlines (getContent fs1 f)))).sum)) =
      (initCounts (parseTokens tokensArg)).map (fun p => (p.1, p.2 +
        ((walkFiles fs2 inputDir).map
          (fun f => pyCount p.1 (removeNewlines (getContent fs2 f)))).sum)) := by
    apply List.map_congr_left
    intro p _
    rw [hsum p.1]
  refine ⟨?_, ?_, dedupKeys_sublist _⟩
  · simp [mainRun, hp1, hp2, hcounts]
  · simp only [mainRun, hp1]
    simp [initCounts, Except.map, List.map_map, Function.comp_def]

/-- Witness for C9: two filesystems listing the same two files in opposite
orders produce identical writes. -/
theorem c9_witness :
    (mainRun ("a,b") [("in")] [("out")]
        ⟨[([("in"), ("f1")], ("ab")), ([("in"), ("f2")], ("ba"))], [("in")]⟩).writes =
      (mainRun ("a,b") [("in")] [("out")]
        ⟨[([("in"), ("f2")], ("ba")), ([("in"), ("f1")], ("ab"))], [("in")]⟩).writes ∧
    Except.map (fun cs => cs.map Prod.fst)
        (mainRun ("a,b") [("in")] [("out")]
          ⟨[([("in"), ("f1")], ("ab")), ([("in"), ("f2")], ("ba"))], [("in")]⟩).result =
      .ok (dedupKeys (parseTokens ("a,b"))) ∧
    (dedupKeys (parseTokens ("a,b"))).Sublist (parseTokens ("a,b")) :=
  c9_deterministic_key_order ("a,b") [("in")] [("out")]
    ⟨[([("in"), ("f1")], ("ab")), ([("in"), ("f2")], ("ba"))], [("in")]⟩
    ⟨[([("in"), ("f2")], ("ba")), ([("in"), ("f1")], ("ab"))], [("in")]⟩
    (by decide) (by decide) (by decide)

/-- Claim C10: for every prediction and every response content type whose
lowercase form is not `pickle`, `output_fn` raises `NameError` for the
unbound name `request_content_type` referenced by its error message, never
reaching the intended `ValueError`; the `pickle` branch (case-insensitive)
is the only one that returns normally, with the pickled prediction. -/
theorem c10_output_fn_name_error (α : Type) (prediction : α)
    (predRepr responseCT : String) :
    (¬ pyLower responseCT = "pickle" →
      output_fn prediction responseCT predRepr =
        .error (.nameError ("request_content_type"))) ∧
    (pyLower responseCT = "pickle" →
      output_fn prediction responseCT predRepr = .ok (pickleDumps prediction)) := by
  constructor
  · intro h
    simp [output_fn, if_neg h, lookupVar, findPath]
  · intro h
    simp [output_fn, if_pos h]

/-- Witness for C10 at content types `application/json` and `PICKLE`. -/
theorem c10_witness :
    output_fn (0 : Nat) ("application/json") ("p") =
      .error (.nameError ("request_content_type")) ∧
    output_fn (0 : Nat) ("PICKLE") ("p") = .ok (pickleDumps 0) :=
  ⟨(c10_output_fn_name_error Nat 0 ("p") ("application/json")).1 (by decide),
   (c10_output_fn_name_error Nat 0 ("p") ("PICKLE")).2 (by decide)⟩
